import Mathlib

/-!
Verification of the libretto virtual-machine lifecycle library.

Each Go function relevant to the claims is shallowly embedded as a Lean
definition over explicit inputs: backend interactions become oracle
parameters (sequences of responses indexed by call number), loops become
fuel-indexed recursions with the fuel taken from the timeout constants of
the source, and Go (value, error) pairs become Except values. Backend
calls issued by an operation are recorded in an explicit trace list.
-/

namespace lvm

/-- Modelled from the spec: the canonical lifecycle state constants of the
base `virtualmachine` package, whose defining file is not under the sources
provided; the spec lists the tokens exposed to callers as
starting, running, halted, suspended, pending, error, unknown. -/
def VMStarting : String := "starting"

/-- Modelled from the spec: canonical running state. -/
def VMRunning : String := "running"

/-- Modelled from the spec: canonical halted state. -/
def VMHalted : String := "halted"

/-- Modelled from the spec: canonical suspended state. -/
def VMSuspended : String := "suspended"

/-- Modelled from the spec: canonical pending state. -/
def VMPending : String := "pending"

/-- Modelled from the spec: canonical error state. -/
def VMError : String := "error"

/-- Modelled from the spec: canonical unknown state. -/
def VMUnknown : String := "unknown"

/-- Modelled from the spec: the set of the seven canonical lifecycle states. -/
def canonicalStates : List String :=
  [VMStarting, VMRunning, VMHalted, VMSuspended, VMPending, VMError, VMUnknown]

end lvm

/-- Helper for goContains: whether the first character list is a prefix of
the second. -/
def listPrefixOf : List Char → List Char → Bool
  | [], _ => true
  | _ :: _, [] => false
  | p :: ps, t :: ts => p == t && listPrefixOf ps ts

/-- Helper for goContains: whether the second character list occurs
anywhere inside the first. -/
def listContains : List Char → List Char → Bool
  | _, [] => true
  | [], _ :: _ => false
  | t :: ts, p :: ps => listPrefixOf (p :: ps) (t :: ts) || listContains ts (p :: ps)

/-- Embedding of Go strings.Contains as used by the azure arm and vmrun
code: naive substring search over the character lists of the two strings. -/
def goContains (s pattern : String) : Bool :=
  listContains s.toList pattern.toList

namespace arm

/-- Constant Running of azure/arm/vm.go: the azure display status for a running VM. -/
def Running : String := "VM running"

/-- Constant Stopped of azure/arm/vm.go: the azure display status for a halted VM. -/
def Stopped : String := "VM stopped"

/-- Constant Succeeded of azure/arm/vm.go: the status of a successful deployment. -/
def Succeeded : String := "Succeeded"

/-- Constant actionTimeout of the arm package variant (part_004): maximum poll
iterations of the deletion loop in Destroy. -/
def actionTimeout : Nat := 90

/-- Embedding of translateState of azure/arm/util.go: maps an azure display
status to a canonical libretto state; unrecognized tokens map to unknown. -/
def translateState (azureState : String) : String :=
  if azureState = "VM starting" ∨ azureState = "VM deploying" then lvm.VMStarting
  else if azureState = Running then lvm.VMRunning
  else if azureState = Stopped then lvm.VMHalted
  else if azureState = "VM deleting" ∨ azureState = "VM suspending" then lvm.VMPending
  else lvm.VMUnknown

/-- Embedding of Poller.PollAsNeeded of azure/arm/util.go. The Go method loops
forever: it calls getProvisioningState, returns (res, err) on a probe error,
returns res on one of the three terminal statuses, and otherwise pauses and
loops again, with no iteration bound. The probe is indexed by call number and
yields the (status, error) pair of that call; the extra fuel argument counts
how many loop iterations we observe, and a `none` result means the loop was
still running after that many iterations. -/
def PollAsNeeded (probe : Nat → String × Option String) : Nat → Nat → Option (String × Option String)
  | _, 0 => none
  | i, fuel + 1 =>
    let r := probe i
    match r.2 with
    | some e => some (r.1, some e)
    | none =>
      if r.1 = Running ∨ r.1 = Stopped ∨ r.1 = Succeeded then some (r.1, none)
      else PollAsNeeded probe (i + 1) fuel

/-- States that PollAsNeeded, run against a probe that always reports the
non-terminal deployment status Accepted with no error, is still looping after
any number of iterations: the Go loop has no timeout. -/
def pollPendingForever : Prop :=
  ∀ (i fuel : Nat), PollAsNeeded (fun _ => ("Accepted", none)) i fuel = none

end arm

namespace azure

/-- Embedding of translateState of azure/util.go (classic azure adapter):
maps an azure deployment status to a canonical libretto state; unrecognized
tokens map to unknown. -/
def translateState (azureState : String) : String :=
  if azureState = "Starting" ∨ azureState = "Deploying" then lvm.VMStarting
  else if azureState = "Running" then lvm.VMRunning
  else if azureState = "Suspended" then lvm.VMHalted
  else if azureState = "Deleting" ∨ azureState = "Suspending" ∨ azureState = "RunningTransitioning" then lvm.VMPending
  else lvm.VMUnknown

end azure

namespace openstack

/-- Constant ActionTimeout of openstack/vm.go: maximum poll iterations (one
per second) of waitUntil and of the deletion loop in Destroy. -/
def ActionTimeout : Nat := 900

/-- Constant StateActive of openstack/vm.go. -/
def StateActive : String := "ACTIVE"

/-- Constant StateShutOff of openstack/vm.go. -/
def StateShutOff : String := "SHUTOFF"

/-- Constant StateError of openstack/vm.go. -/
def StateError : String := "ERROR"

/-- Errors of the openstack adapter. The named constructors embed the
package-level error values of openstack/vm.go (ErrNoInstanceID,
ErrActionTimeout, ...); suspendNotSupported and resumeNotSupported embed the
lvm.ErrSuspendNotSupported and lvm.ErrResumeNotSupported values of the base
package; failedToBringState embeds the formatted error of waitUntil, which
mentions only the requested target state; msg embeds ad hoc fmt.Errorf values
by their message. -/
inductive OsErr where
  | noInstanceID
  | vmInfoFailed
  | actionTimeout
  | authenticatingClient
  | noFlavor
  | suspendNotSupported
  | resumeNotSupported
  | failedToBringState (target : String)
  | msg (s : String)
deriving DecidableEq, Repr

/-- Result of one instrumented run of waitUntil: the returned error (none
means success), the number of probe invocations, and the number of sleeps. -/
structure WaitOutcome where
  result : Option OsErr
  probes : Nat
  sleeps : Nat
deriving DecidableEq, Repr

/-- Loop body of waitUntil of openstack/util.go. The Go loop runs at most
ActionTimeout iterations; each iteration calls vm.GetState (the probe,
indexed here by probe count), returns the error if the probe fails, breaks
on the target state, returns a formatted fatal error if the canonical error
state is seen, and otherwise sleeps one second. After the loop the code
returns ErrActionTimeout if the last observed state is not the target.
The String argument carries the current value of the curState variable,
whose Go zero value is the empty string. -/
def waitUntilLoop (probe : Nat → Except OsErr String) (state : String) :
    Nat → String → Nat → Nat → WaitOutcome
  | 0, curState, p, s =>
    if curState ≠ state then ⟨some .actionTimeout, p, s⟩ else ⟨none, p, s⟩
  | n + 1, _, p, s =>
    match probe p with
    | .error e => ⟨some e, p + 1, s⟩
    | .ok curState =>
      if curState = state then ⟨none, p + 1, s⟩
      else if curState = lvm.VMError then ⟨some (.failedToBringState state), p + 1, s⟩
      else waitUntilLoop probe state n curState (p + 1) (s + 1)

/-- Embedding of waitUntil of openstack/util.go, instrumented with probe and
sleep counts. -/
def waitUntil (probe : Nat → Except OsErr String) (state : String) : WaitOutcome :=
  waitUntilLoop probe state ActionTimeout "" 0 0

/-- Constant VolumeActionTimeout of openstack/vm.go. -/
def VolumeActionTimeout : Nat := 900

/-- Backend calls an openstack operation can issue; authenticate stands for
the construction of an authenticated provider/service client. -/
inductive Call where
  | authenticate
  | flavorLookup
  | imageList
  | imageCreate
  | serverCreate
  | serversGet
  | serverDelete
  | serverStart
  | serverStop
  | fipCreate
  | fipAssociate
  | fipDisassociate
  | fipDelete
  | volCreate
  | volGet
  | volAttach
  | volDetach
  | volDelete
  | networkGet
  | sshWait
deriving DecidableEq, Repr

/-- Server object returned by the SDK call servers.Get: its status string and
its address map (network name to a list of (address type, address) blocks). -/
structure Server where
  Status : String
  Addresses : List (String × List (String × String))
deriving DecidableEq, Repr

/-- Embedding of getServer of openstack/util.go: fails on a missing instance
ID or a failed client; when the SDK returns both a server and an error it
fails, and otherwise it returns the (possibly nil) server with a nil error.
The sdk argument is the pair of the returned server and the error flag of
servers.Get. -/
def getServer (instanceID : String) (clientOK : Bool) (sdk : Option Server × Bool) :
    Except OsErr (Option Server) :=
  if instanceID = "" then .error .noInstanceID
  else if clientOK = false then .error .authenticatingClient
  else
    match sdk with
    | (some _, true) => .error (.msg "Failed to retrieve the server for VM")
    | (st, _) => .ok st

/-- Embedding of VM.GetState of openstack/vm.go: translates the server status
inline; a nil server yields the ErrVMInfoFailed error, ACTIVE maps to
running, SHUTOFF to halted, ERROR to error and anything else to unknown. -/
def GetState (instanceID : String) (clientOK : Bool) (sdk : Option Server × Bool) :
    Except OsErr String :=
  match getServer instanceID clientOK sdk with
  | .error e => .error e
  | .ok none => .error .vmInfoFailed
  | .ok (some server) =>
    if server.Status = StateActive then .ok lvm.VMRunning
    else if server.Status = StateShutOff then .ok lvm.VMHalted
    else if server.Status = StateError then .ok lvm.VMError
    else .ok lvm.VMUnknown

/-- State of an openstack VM record: the fields of the VM struct of
openstack/vm.go that the lifecycle operations read or write. -/
structure OsVM where
  InstanceID : String
  ImageID : String
  FloatingIPPool : String
  FloatingIP : Option (String × String)
  VolumeSize : Int
  VolumeID : String
  VolumeDevice : String
  Networks : List String
  computeClientSet : Bool
deriving DecidableEq, Repr

/-- Backend environment for the openstack operations: the outcome every
backend interaction would have, with poll targets given as sequences indexed
by poll number. -/
structure OsEnv where
  authOK : Bool
  flavorID : Except Unit String
  imageLookup : Except String String
  imageCreate : Except OsErr String
  serverCreate : Except String String
  getStateSeq : Nat → Except OsErr String
  getStateOnce : Except OsErr String
  fipCreate : Except String (String × String)
  fipAssociateErr : Option String
  sshReady : Except OsErr Unit
  volCreate : Except String String
  volAttach : Except String String
  volGetAvail : Nat → Option String × Bool
  volGetInUse : Nat → Option String × Bool
  volDetachErr : Option String
  volGetAvail2 : Nat → Option String × Bool
  volDeleteErr : Option String
  volGetDeleted : Nat → Option String × Bool
  fipDisassociateErr : Option String
  fipDeleteErr : Option String
  serverDeleteErr : Option String
  serversGetSeq : Nat → Option Server × Bool
  startErr : Option String
  stopErr : Option String
  networkName : String → Except String String

/-- Embedding of getComputeClient of openstack/util.go: reuses the cached
client without a backend interaction, otherwise authenticates. -/
def getComputeClient (vm : OsVM) (env : OsEnv) : Except OsErr Unit × OsVM × List Call :=
  if vm.computeClientSet then (.ok (), vm, [])
  else if env.authOK then (.ok (), { vm with computeClientSet := true }, [.authenticate])
  else (.error .authenticatingClient, vm, [.authenticate])

/-- Embedding of getBlockStorageClient of openstack/util.go: always
authenticates a fresh provider client. -/
def getBlockStorageClient (env : OsEnv) : Except OsErr Unit × List Call :=
  if env.authOK then (.ok (), [.authenticate]) else (.error .authenticatingClient, [.authenticate])

/-- Embedding of waitUntilVolume of openstack/util.go: polls volumes.Get at
most the given fuel many times; a nil volume is success exactly when the
requested state is the literal string nil, a nil volume or an SDK error is
otherwise a failure, the requested status is success, and error statuses are
fatal. The volGet sequence gives, per poll, the returned status (if a volume
was returned) and the SDK error flag; the trace lists the volGet calls. -/
def waitUntilVolume (volGet : Nat → Option String × Bool) (state : String) :
    Nat → Nat → Except OsErr Unit × List Call
  | _, 0 => (.error .actionTimeout, [])
  | i, n + 1 =>
    match volGet i with
    | (none, _) =>
      if state = "nil" then (.ok (), [.volGet])
      else (.error (.msg "Failed on getting volume Status"), [.volGet])
    | (some _, true) => (.error (.msg "Failed on getting volume Status"), [.volGet])
    | (some st, false) =>
      if st = state then (.ok (), [.volGet])
      else if st = lvm.VMError ∨ st = "error_deleting" then
        (.error (.msg ("Failed to bring the volume to state " ++ state ++ ", ended up at state " ++ st)), [.volGet])
      else
        let r := waitUntilVolume volGet state (i + 1) n
        (r.1, .volGet :: r.2)

/-- Embedding of createAndAttachVolume of openstack/util.go: creates a
volume, waits for it to become available, attaches it, waits for the in-use
status, then records the volume ID and device on the VM. -/
def createAndAttachVolume (vm : OsVM) (env : OsEnv) : Except OsErr Unit × OsVM × List Call :=
  if vm.InstanceID = "" then (.error .noInstanceID, vm, [])
  else
    let c := getComputeClient vm env
    match c.1 with
    | .error _ => (.error (.msg "Compute Client is not set for the VM"), c.2.1, c.2.2)
    | .ok _ =>
      let b := getBlockStorageClient env
      match b.1 with
      | .error e => (.error e, c.2.1, c.2.2 ++ b.2)
      | .ok _ =>
        match env.volCreate with
        | .error e =>
          (.error (.msg ("Failed to create a new volume for the VM: " ++ e)), c.2.1,
            c.2.2 ++ b.2 ++ [.volCreate])
        | .ok volID =>
          let w1 := waitUntilVolume env.volGetAvail "available" 0 VolumeActionTimeout
          match w1.1 with
          | .error _ =>
            (.error (.msg "Failed to create a new volume for the VM"), c.2.1,
              c.2.2 ++ b.2 ++ [.volCreate] ++ w1.2)
          | .ok _ =>
            match env.volAttach with
            | .error e =>
              (.error (.msg ("Failed to attach the volume to the VM: " ++ e)), c.2.1,
                c.2.2 ++ b.2 ++ [.volCreate] ++ w1.2 ++ [.volAttach])
            | .ok device =>
              let w2 := waitUntilVolume env.volGetInUse "in-use" 0 VolumeActionTimeout
              match w2.1 with
              | .error _ =>
                (.error (.msg "Failed to attach the volume to the VM"), c.2.1,
                  c.2.2 ++ b.2 ++ [.volCreate] ++ w1.2 ++ [.volAttach] ++ w2.2)
              | .ok _ =>
                (.ok (), { c.2.1 with VolumeID := volID, VolumeDevice := device },
                  c.2.2 ++ b.2 ++ [.volCreate] ++ w1.2 ++ [.volAttach] ++ w2.2)

/-- Embedding of deattachAndDeleteVolume of openstack/util.go: detaches the
volume, waits for the available status, deletes it, then waits for the nil
state. -/
def deattachAndDeleteVolume (vm : OsVM) (env : OsEnv) : Except OsErr Unit × OsVM × List Call :=
  if vm.InstanceID = "" then (.error .noInstanceID, vm, [])
  else
    let c := getComputeClient vm env
    match c.1 with
    | .error _ => (.error (.msg "Compute Client is not set for the VM"), c.2.1, c.2.2)
    | .ok _ =>
      let b := getBlockStorageClient env
      match b.1 with
      | .error e => (.error e, c.2.1, c.2.2 ++ b.2)
      | .ok _ =>
        match env.volDetachErr with
        | some e =>
          (.error (.msg ("Failed to deattach volume from the VM: " ++ e)), c.2.1,
            c.2.2 ++ b.2 ++ [.volDetach])
        | none =>
          let w1 := waitUntilVolume env.volGetAvail2 "available" 0 VolumeActionTimeout
          match w1.1 with
          | .error _ =>
            (.error (.msg "Failed to deattach volume from the VM"), c.2.1,
              c.2.2 ++ b.2 ++ [.volDetach] ++ w1.2)
          | .ok _ =>
            match env.volDeleteErr with
            | some e =>
              (.error (.msg ("Failed to delete volume: " ++ e)), c.2.1,
                c.2.2 ++ b.2 ++ [.volDetach] ++ w1.2 ++ [.volDelete])
            | none =>
              let w2 := waitUntilVolume env.volGetDeleted "nil" 0 VolumeActionTimeout
              match w2.1 with
              | .error _ =>
                (.error (.msg "Failed to delete volume"), c.2.1,
                  c.2.2 ++ b.2 ++ [.volDetach] ++ w1.2 ++ [.volDelete] ++ w2.2)
              | .ok _ =>
                (.ok (), c.2.1, c.2.2 ++ b.2 ++ [.volDetach] ++ w1.2 ++ [.volDelete] ++ w2.2)

/-- Embedding of VM.Provision of openstack/vm.go: resolves the flavor and
image, creates the server, records its ID, waits for the running state,
creates and associates a floating IP, waits for SSH reachability, and
finally creates and attaches a volume when one is requested. -/
def Provision (vm : OsVM) (env : OsEnv) : Except OsErr Unit × OsVM × List Call :=
  let c := getComputeClient vm env
  match c.1 with
  | .error _ => (.error (.msg "Compute Client is not set for the VM"), c.2.1, c.2.2)
  | .ok _ =>
    let vm0 := c.2.1
    let t1 := c.2.2 ++ [Call.flavorLookup]
    match env.flavorID with
    | .error _ => (.error .noFlavor, vm0, t1)
    | .ok _ =>
      let i :=
        if vm.ImageID = "" then
          match env.imageLookup with
          | .error e => ((Except.error (OsErr.msg ("Error on searching image: " ++ e)) : Except OsErr String), [Call.imageList])
          | .ok found =>
            if found = "" then
              match env.imageCreate with
              | .error e => ((Except.error e : Except OsErr String), [Call.imageList, Call.imageCreate])
              | .ok created => ((Except.ok created : Except OsErr String), [Call.imageList, Call.imageCreate])
            else ((Except.ok found : Except OsErr String), [Call.imageList])
        else ((Except.ok vm.ImageID : Except OsErr String), ([] : List Call))
      match i.1 with
      | .error e => (.error e, vm0, t1 ++ i.2)
      | .ok imageID =>
        let vm1 := if vm.ImageID = "" then { vm0 with ImageID := imageID } else vm0
        let t2 := t1 ++ i.2 ++ [Call.serverCreate]
        match env.serverCreate with
        | .error e => (.error (.msg e), vm1, t2)
        | .ok serverID =>
          let vm2 := { vm1 with InstanceID := serverID }
          let w := waitUntil env.getStateSeq lvm.VMRunning
          let t3 := t2 ++ List.replicate w.probes Call.serversGet
          match w.result with
          | some e => (.error e, vm2, t3)
          | none =>
            if vm2.FloatingIPPool = "" then (.error (.msg "Empty floating IP pool"), vm2, t3)
            else
              let t4 := t3 ++ [Call.fipCreate]
              match env.fipCreate with
              | .error e => (.error (.msg ("Unable to create a floating ip: " ++ e)), vm2, t4)
              | .ok fip =>
                let t5 := t4 ++ [Call.fipAssociate]
                match env.fipAssociateErr with
                | some e => (.error (.msg ("Unable to associate a floating ip: " ++ e)), vm2, t5)
                | none =>
                  let vm3 := { vm2 with FloatingIP := some fip }
                  let t6 := t5 ++ [Call.sshWait]
                  match env.sshReady with
                  | .error e => (.error e, vm3, t6)
                  | .ok _ =>
                    if vm3.VolumeSize > 0 then
                      let v := createAndAttachVolume vm3 env
                      (v.1, v.2.1, t6 ++ v.2.2)
                    else (.ok (), vm3, t6)

/-- Embedding of the deletion wait loop inside VM.Destroy of
openstack/vm.go: polls getServer until the server is gone; a server in the
ERROR status is fatal; running out of iterations leaves the server present
and yields ErrActionTimeout. -/
def destroyPollLoop (seq : Nat → Option Server × Bool) : Nat → Nat → Except OsErr Unit × List Call
  | _, 0 => (.error .actionTimeout, [])
  | i, n + 1 =>
    match seq i with
    | (some _, true) => (.error (.msg "Failed to retrieve the server for VM"), [.serversGet])
    | (none, _) => (.ok (), [.serversGet])
    | (some server, false) =>
      if server.Status = StateError then (.error (.msg "Error on destroying the vm"), [.serversGet])
      else
        let r := destroyPollLoop seq (i + 1) n
        (r.1, .serversGet :: r.2)

/-- Embedding of VM.Destroy of openstack/vm.go: fails fast without a backend
call when the instance ID is empty; otherwise disassociates and deletes the
floating IP when one is recorded, detaches and deletes the volume when one
was requested, deletes the server, then polls until the server is gone. Only
the cached compute client is cleared on success; the instance ID and the
floating IP record are left in place. -/
def Destroy (vm : OsVM) (env : OsEnv) : Except OsErr Unit × OsVM × List Call :=
  if vm.InstanceID = "" then (.error .noInstanceID, vm, [])
  else
    let c := getComputeClient vm env
    match c.1 with
    | .error _ => (.error (.msg "Compute Client is not set for the VM"), c.2.1, c.2.2)
    | .ok _ =>
      let vm1 := c.2.1
      let f :=
        match vm1.FloatingIP with
        | none => ((Except.ok () : Except OsErr Unit), ([] : List Call))
        | some _ =>
          match env.fipDisassociateErr with
          | some e =>
            ((Except.error (OsErr.msg ("Unable to disassociate floating ip from instance: " ++ e)) : Except OsErr Unit),
              [Call.fipDisassociate])
          | none =>
            match env.fipDeleteErr with
            | some e =>
              ((Except.error (OsErr.msg ("Unable to delete floating ip: " ++ e)) : Except OsErr Unit),
                [Call.fipDisassociate, Call.fipDelete])
            | none => ((Except.ok () : Except OsErr Unit), [Call.fipDisassociate, Call.fipDelete])
      match f.1 with
      | .error e => (.error e, vm1, c.2.2 ++ f.2)
      | .ok _ =>
        let v :=
          if vm1.VolumeSize > 0 then deattachAndDeleteVolume vm1 env
          else ((Except.ok () : Except OsErr Unit), vm1, ([] : List Call))
        match v.1 with
        | .error e => (.error e, v.2.1, c.2.2 ++ f.2 ++ v.2.2)
        | .ok _ =>
          let t4 := c.2.2 ++ f.2 ++ v.2.2 ++ [Call.serverDelete]
          match env.serverDeleteErr with
          | some e => (.error (.msg ("Failed to destroy the vm: " ++ e)), v.2.1, t4)
          | none =>
            let p := destroyPollLoop env.serversGetSeq 0 ActionTimeout
            match p.1 with
            | .error e => (.error e, v.2.1, t4 ++ p.2)
            | .ok _ => (.ok (), { v.2.1 with computeClientSet := false }, t4 ++ p.2)

/-- Embedding of VM.Start of openstack/vm.go: fails fast without a backend
call when the instance ID is empty; otherwise checks that the VM is halted,
issues the start call and waits for SSH reachability. -/
def Start (vm : OsVM) (env : OsEnv) : Except OsErr Unit × OsVM × List Call :=
  if vm.InstanceID = "" then (.error .noInstanceID, vm, [])
  else
    let c := getComputeClient vm env
    match c.1 with
    | .error _ => (.error (.msg "Compute Client is not set for the VM"), c.2.1, c.2.2)
    | .ok _ =>
      let t2 := c.2.2 ++ [Call.serversGet]
      match env.getStateOnce with
      | .error e => (.error e, c.2.1, t2)
      | .ok st =>
        if st ≠ lvm.VMHalted then (.error (.msg "VM is not in halted state"), c.2.1, t2)
        else
          let t3 := t2 ++ [Call.serverStart]
          match env.startErr with
          | some _ => (.error (.msg "Failed to start the instance"), c.2.1, t3)
          | none =>
            let t4 := t3 ++ [Call.sshWait]
            match env.sshReady with
            | .error e => (.error e, c.2.1, t4)
            | .ok _ => (.ok (), c.2.1, t4)

/-- Embedding of VM.Halt of openstack/vm.go: fails fast without a backend
call when the instance ID is empty; otherwise checks that the VM is running,
issues the stop call and waits for the halted state. -/
def Halt (vm : OsVM) (env : OsEnv) : Except OsErr Unit × OsVM × List Call :=
  if vm.InstanceID = "" then (.error .noInstanceID, vm, [])
  else
    let c := getComputeClient vm env
    match c.1 with
    | .error _ => (.error (.msg "Compute Client is not set for the VM"), c.2.1, c.2.2)
    | .ok _ =>
      let t2 := c.2.2 ++ [Call.serversGet]
      match env.getStateOnce with
      | .error e => (.error e, c.2.1, t2)
      | .ok st =>
        if st ≠ lvm.VMRunning then (.error (.msg "The VM is not active, so cannot be halted"), c.2.1, t2)
        else
          let t3 := t2 ++ [Call.serverStop]
          match env.stopErr with
          | some e => (.error (.msg ("Failed to stop the instance: " ++ e)), c.2.1, t3)
          | none =>
            let w := waitUntil env.getStateSeq lvm.VMHalted
            let t4 := t3 ++ List.replicate w.probes Call.serversGet
            match w.result with
            | some e => (.error e, c.2.1, t4)
            | none => (.ok (), c.2.1, t4)

/-- Embedding of VM.Suspend of openstack/vm.go: always returns
lvm.ErrSuspendNotSupported without touching the backend. -/
def Suspend (vm : OsVM) : Except OsErr Unit × OsVM × List Call :=
  (.error .suspendNotSupported, vm, [])

/-- Embedding of VM.Resume of openstack/vm.go: always returns
lvm.ErrResumeNotSupported without touching the backend. -/
def Resume (vm : OsVM) : Except OsErr Unit × OsVM × List Call :=
  (.error .resumeNotSupported, vm, [])

/-- Address lookup on the server address map, mirroring
served.Addresses indexed by network name in VM.GetIPs. -/
def lookupAddresses (addrs : List (String × List (String × String))) (name : String) :
    List (String × String) :=
  match addrs.find? (fun p => p.1 = name) with
  | some p => p.2
  | none => []

/-- Loop body of VM.GetIPs of openstack/vm.go over the VM network list: each
network costs one networks.Get call; floating addresses land in the public
slot and fixed addresses in the private slot. -/
def getIPsLoop (env : OsEnv) (server : Server) :
    List String → (Option String × Option String) →
    Except OsErr (Option String × Option String) × List Call
  | [], ips => (.ok ips, [])
  | nid :: rest, ips =>
    match env.networkName nid with
    | .error e => (.error (.msg e), [.networkGet])
    | .ok nm =>
      let blocks := lookupAddresses server.Addresses nm
      let ips2 := blocks.foldl
        (fun acc b =>
          if b.1 = "floating" then (some b.2, acc.2)
          else if b.1 = "fixed" then (acc.1, some b.2)
          else acc) ips
      let r := getIPsLoop env server rest ips2
      (r.1, .networkGet :: r.2)

/-- Embedding of VM.GetIPs of openstack/vm.go: fetches the server (returning
the getServer error when the server is nil, which covers the missing
instance ID), builds a fresh network client, then resolves addresses per
network. A nil server obtained with a nil error makes the Go code return a
nil slice and a nil error, embedded as ok none. -/
def GetIPs (vm : OsVM) (env : OsEnv) :
    Except OsErr (Option (Option String × Option String)) × OsVM × List Call :=
  if vm.InstanceID = "" then (.error .noInstanceID, vm, [])
  else
    let c := getComputeClient vm env
    match c.1 with
    | .error e => (.error e, c.2.1, c.2.2)
    | .ok _ =>
      let t1 := c.2.2 ++ [Call.serversGet]
      match env.serversGetSeq 0 with
      | (some _, true) => (.error (.msg "Failed to retrieve the server for VM"), c.2.1, t1)
      | (none, _) => (.ok none, c.2.1, t1)
      | (some server, false) =>
        let t2 := t1 ++ [Call.authenticate]
        if env.authOK = false then (.error .authenticatingClient, c.2.1, t2)
        else
          let r := getIPsLoop env server vm.Networks (none, none)
          match r.1 with
          | .error e => (.error e, c.2.1, t2 ++ r.2)
          | .ok ips => (.ok (some ips), c.2.1, t2 ++ r.2)

end openstack

namespace arm

/-- Fields of the arm VM struct that validateVM of azure/arm/util.go
inspects. -/
structure ArmVM where
  ClientID : String
  ClientSecret : String
  TenantID : String
  SubscriptionID : String
  ImagePublisher : String
  ImageOffer : String
  ImageSku : String
  Location : String
  ResourceGroup : String
  StorageAccount : String
  Subnet : String
  VirtualNetwork : String
deriving DecidableEq, Repr

/-- Embedding of validateVM of azure/arm/util.go: checks each required field
in source order and fails with the message of the first empty one. -/
def validateVM (vm : ArmVM) : Except String Unit :=
  if vm.ClientID = "" then .error "a client_id must be specified"
  else if vm.ClientSecret = "" then .error "a client_secret must be specified"
  else if vm.TenantID = "" then .error "a tenant_id must be specified"
  else if vm.SubscriptionID = "" then .error "a subscription_id must be specified"
  else if vm.ImagePublisher = "" then .error "a image_publisher must be specified"
  else if vm.ImageOffer = "" then .error "a image_offer must be specified"
  else if vm.ImageSku = "" then .error "a image_sku must be specified"
  else if vm.Location = "" then .error "a location must be specified"
  else if vm.ResourceGroup = "" then .error "a resource_group must be specified"
  else if vm.StorageAccount = "" then .error "a storage_account must be specified"
  else if vm.Subnet = "" then .error "a subnet must be specified"
  else if vm.VirtualNetwork = "" then .error "a virtual_network must be specified"
  else .ok ()

/-- Backend environment of VM.Provision of azure/arm/vm.go. -/
structure ProvisionEnv where
  tokenOK : Except String Unit
  deployResult : Except String Unit
  getSSH : Except String Unit
  waitForSSH : Except String Unit

/-- Embedding of VM.Provision of azure/arm/vm.go: validates the VM, builds
the service principal token, generates the os-file, public-ip and nic names,
calls vm.deploy WITHOUT inspecting its result (the Go statement is a bare
vm.deploy() whose returned error is discarded), then obtains an SSH client
and waits for reachability. -/
def Provision (vm : ArmVM) (env : ProvisionEnv) : Except String Unit :=
  match validateVM vm with
  | .error e => .error e
  | .ok _ =>
    match env.tokenOK with
    | .error e => .error e
    | .ok _ =>
      match env.deployResult with
      | _ =>
        match env.getSSH with
        | .error e => .error e
        | .ok _ => env.waitForSSH

/-- Embedding of VM.GetState of azure/arm/vm.go: when the response carries
instance view properties, the second display status is translated and
returned together with whatever error the SDK call produced; otherwise the
empty string is returned with that error. -/
def GetState (displayStatus : Option String) (e : Option String) : String × Option String :=
  match displayStatus with
  | some st => (translateState st, e)
  | none => ("", e)

/-- Deletion wait loop of VM.Destroy of the arm package variant (part_004):
polls vm.GetState up to actionTimeout times looking only at the error; a
ResourceNotFound or NotFound error code means the VM is gone (success), any
other error is returned, and an error-free poll just sleeps. The ok result
says whether deletion was confirmed before the iterations ran out. -/
def destroyPoll (seq : Nat → Option String) : Nat → Nat → Except String Bool
  | _, 0 => .ok false
  | i, n + 1 =>
    match seq i with
    | some e =>
      if goContains e "Code=\"ResourceNotFound\"" ∨ goContains e "Code=\"NotFound\"" then .ok true
      else .error e
    | none => destroyPoll seq (i + 1) n

/-- Embedding of VM.Destroy of the arm package variant (part_004): deletes
the VM, polls until a NotFound-style error confirms the deletion (treating
that error as success), then deletes the OS file, the NIC and the public IP. -/
def Destroy (deleteErr : Option String) (getStateSeq : Nat → Option String)
    (osFileErr nicErr ipErr : Option String) : Except String Unit :=
  match deleteErr with
  | some e => .error e
  | none =>
    match destroyPoll getStateSeq 0 actionTimeout with
    | .error e => .error e
    | .ok false => .error "Azure action timeout"
    | .ok true =>
      match osFileErr with
      | some e => .error e
      | none =>
        match nicErr with
        | some e => .error e
        | none =>
          match ipErr with
          | some e => .error e
          | none => .ok ()

end arm

namespace azure

/-- Embedding of VM.GetState of azure/vm.go (classic adapter): a failed
client yields the client error, a failed GetDeployment yields
ErrVMInfoFailed, and otherwise the deployment status is translated. -/
def GetState (clientOK : Bool) (deployment : Except String String) : Except String String :=
  if clientOK = false then .error "Error to retrieve Azure client"
  else
    match deployment with
    | .error _ => .error "Failed to query the VM information"
    | .ok status => .ok (translateState status)

end azure

namespace google

/-- Instance object returned by the GCE SDK: only its status string is
relevant here. -/
structure Instance where
  Status : String
deriving DecidableEq, Repr

/-- Embedding of VM.GetState of google/vm.go: after obtaining the service
and the instance, the method returns instance.Status unchanged; no
translation to the canonical state vocabulary is applied. -/
def GetState (svc : Except String Unit) (inst : Except String Instance) : Except String String :=
  match svc with
  | .error e => .error e
  | .ok _ =>
    match inst with
    | .error e => .error e
    | .ok i => .ok i.Status

end google

namespace exoscale

/-- Backend calls the exoscale operations can issue. -/
inductive Call where
  | listTemplates
  | listServiceOfferings
  | listSecurityGroups
  | listZones
  | createVirtualMachine
  | queryAsyncJobResult
  | listVirtualMachines
deriving DecidableEq, Repr

/-- Fields of the exoscale VM struct that Provision reads or writes. -/
structure ExoVM where
  TemplateID : String
  ServiceOfferingID : String
  SecurityGroupIDs : List String
  ZoneID : String
  JobID : String
deriving DecidableEq, Repr

/-- Backend environment of the exoscale Provision: the outcome of each
resolution call and of CreateVirtualMachine. -/
structure Env where
  fillTemplate : Except String String
  fillOffering : Except String String
  fillSecurityGroups : Except String (List String)
  fillZone : Except String String
  create : Except String String

/-- Embedding of VM.Provision of exoscale/vm.go: resolves missing template,
service offering, security group and zone identifiers (one backend list
call each; the security group resolution error is discarded by the Go
code), issues CreateVirtualMachine, stores the returned asynchronous job
identifier in vm.JobID and returns. No polling of the creation job and no
state or reachability wait happens inside Provision. -/
def Provision (vm : ExoVM) (env : Env) : Except String Unit × ExoVM × List Call :=
  let t :=
    if vm.TemplateID = "" then
      match env.fillTemplate with
      | .error e => ((Except.error e : Except String Unit), vm, [Call.listTemplates])
      | .ok found => ((Except.ok () : Except String Unit), { vm with TemplateID := found }, [Call.listTemplates])
    else ((Except.ok () : Except String Unit), vm, ([] : List Call))
  match t.1 with
  | .error e => (.error e, t.2.1, t.2.2)
  | .ok _ =>
    let vm1 := t.2.1
    let o :=
      if vm1.ServiceOfferingID = "" then
        match env.fillOffering with
        | .error e => ((Except.error e : Except String Unit), vm1, [Call.listServiceOfferings])
        | .ok found => ((Except.ok () : Except String Unit), { vm1 with ServiceOfferingID := found }, [Call.listServiceOfferings])
      else ((Except.ok () : Except String Unit), vm1, ([] : List Call))
    match o.1 with
    | .error e => (.error e, o.2.1, t.2.2 ++ o.2.2)
    | .ok _ =>
      let vm2 := o.2.1
      let s :=
        if vm2.SecurityGroupIDs.any (fun i => i = "") then
          match env.fillSecurityGroups with
          | .error _ => (vm2, [Call.listSecurityGroups])
          | .ok ids => ({ vm2 with SecurityGroupIDs := ids }, [Call.listSecurityGroups])
        else (vm2, ([] : List Call))
      let vm3 := s.1
      let z :=
        if vm3.ZoneID = "" then
          match env.fillZone with
          | .error e => ((Except.error e : Except String Unit), vm3, [Call.listZones])
          | .ok found => ((Except.ok () : Except String Unit), { vm3 with ZoneID := found }, [Call.listZones])
        else ((Except.ok () : Except String Unit), vm3, ([] : List Call))
      match z.1 with
      | .error e => (.error e, z.2.1, t.2.2 ++ o.2.2 ++ s.2 ++ z.2.2)
      | .ok _ =>
        let vm4 := z.2.1
        let t5 := t.2.2 ++ o.2.2 ++ s.2 ++ z.2.2 ++ [Call.createVirtualMachine]
        match env.create with
        | .error e => (.error e, vm4, t5)
        | .ok jobID => (.ok (), { vm4 with JobID := jobID }, t5)

end exoscale

namespace vmrun

/-- Embedding of VM.GetState of vmrun/vm.go: runs the vmrun list command; a
run error or non-empty stderr is an error; a listing that contains the VM
destination path means running; otherwise the destination is resolved
through EvalSymlinks and Abs (either may fail) and checked again; every VM
not listed, including one that was cleanly halted, is reported as the
canonical suspended state. -/
def GetState (stdout stderr : String) (runErr : Option String) (dst : String)
    (evalSymlinks : Except String String) (absOf : String → Except String String) :
    Except String String :=
  match runErr with
  | some e => .error e
  | none =>
    if stderr ≠ "" then .error ("Failed to get state using the vmrun utility: " ++ stderr)
    else if goContains stdout dst then .ok lvm.VMRunning
    else
      match evalSymlinks with
      | .error e => .error e
      | .ok p =>
        match absOf p with
        | .error e => .error e
        | .ok absp =>
          if goContains stdout absp then .ok lvm.VMRunning
          else .ok lvm.VMSuspended

end vmrun

namespace fixtures

/-- Status tokens the arm translateState switch recognizes. -/
def armRecognized : List String :=
  ["VM starting", "VM deploying", "VM running", "VM stopped", "VM deleting", "VM suspending"]

/-- Status tokens the classic azure translateState switch recognizes. -/
def azureRecognized : List String :=
  ["Starting", "Deploying", "Running", "Suspended", "Deleting", "Suspending", "RunningTransitioning"]

/-- Openstack VM that was never provisioned: the instance ID is empty. -/
def vmNoID : openstack.OsVM :=
  ⟨"", "img-1", "public", none, 10, "", "", ["net-1"], false⟩

/-- Openstack VM ready to provision: image resolved, floating IP pool set,
a ten gigabyte volume requested. -/
def vmReady : openstack.OsVM :=
  ⟨"", "img-1", "public", none, 10, "", "", ["net-1"], false⟩

/-- Openstack VM as it looks after a successful Provision under envOk. -/
def vmProvisioned : openstack.OsVM :=
  ⟨"id-1", "img-1", "public", some ("fid", "1.2.3.4"), 10, "vol-1", "/dev/vdb", ["net-1"], true⟩

/-- All-success openstack environment: the first status poll already reports
running, volumes reach each requested state on the first poll, and the
deletion poll finds the server gone immediately. -/
def envOk : openstack.OsEnv :=
  { authOK := true
    flavorID := .ok "flavor-1"
    imageLookup := .ok "img-1"
    imageCreate := .ok "img-1"
    serverCreate := .ok "id-1"
    getStateSeq := fun _ => .ok lvm.VMRunning
    getStateOnce := .ok lvm.VMRunning
    fipCreate := .ok ("fid", "1.2.3.4")
    fipAssociateErr := none
    sshReady := .ok ()
    volCreate := .ok "vol-1"
    volAttach := .ok "/dev/vdb"
    volGetAvail := fun _ => (some "available", false)
    volGetInUse := fun _ => (some "in-use", false)
    volDetachErr := none
    volGetAvail2 := fun _ => (some "available", false)
    volDeleteErr := none
    volGetDeleted := fun _ => (none, false)
    fipDisassociateErr := none
    fipDeleteErr := none
    serverDeleteErr := none
    serversGetSeq := fun _ => (none, false)
    startErr := none
    stopErr := none
    networkName := fun n => .ok n }

/-- Openstack environment after every backend resource is already gone: the
floating IP teardown calls fail with a not-found style error. -/
def envGone : openstack.OsEnv :=
  { envOk with
    fipDisassociateErr := some "Resource not found"
    fipDeleteErr := some "Resource not found"
    volDetachErr := some "Resource not found"
    serverDeleteErr := some "Resource not found" }

/-- Exoscale VM whose identifiers are all resolved before Provision. -/
def vmExo : exoscale.ExoVM := ⟨"tmpl-1", "offer-1", ["sg-1"], "zone-1", ""⟩

/-- Exoscale environment whose create call returns job job-42. -/
def envExo : exoscale.Env := ⟨.ok "t", .ok "o", .ok ["sg"], .ok "z", .ok "job-42"⟩

/-- Azure arm VM with every required spec field present. -/
def vmArm : arm.ArmVM :=
  ⟨"client-1", "secret-1", "tenant-1", "sub-1", "Canonical", "UbuntuServer", "16.04-LTS",
   "westus", "rg-1", "storage1", "subnet-1", "vnet-1"⟩

/-- Azure arm environment whose deployment fails while SSH succeeds. -/
def envArmDeployFails : arm.ProvisionEnv :=
  ⟨.ok (), .error "deployment failed with a status of Failed.", .ok (), .ok ()⟩

end fixtures

/-- Helper: PollAsNeeded never returns under the always-Accepted probe,
whatever the call offset and however many iterations are observed. -/
theorem arm_PollAsNeeded_pending (i fuel : Nat) :
    arm.PollAsNeeded (fun _ => ("Accepted", none)) i fuel = none := by
  induction fuel generalizing i with
  | zero => rfl
  | succ n ih => exact ih (i + 1)

/-- Helper: when every probe answer is neither the target nor the error
state, waitUntilLoop consumes all its iterations and ends in the timeout
error, probing and sleeping once per iteration. -/
theorem waitUntilLoop_stuck (f : Nat → String) (state : String)
    (hf : ∀ i, f i ≠ state ∧ f i ≠ lvm.VMError) :
    ∀ (n : Nat) (cur : String) (p s : Nat), cur ≠ state →
      openstack.waitUntilLoop (fun i => .ok (f i)) state n cur p s =
        ⟨some .actionTimeout, p + n, s + n⟩ := by
  intro n
  induction n with
  | zero =>
    intro cur p s hcur
    simp [openstack.waitUntilLoop, hcur]
  | succ m ih =>
    intro cur p s hcur
    simp only [openstack.waitUntilLoop]
    rw [if_neg (hf p).1, if_neg (hf p).2]
    rw [ih (f p) (p + 1) (s + 1) (hf p).1]
    have e1 : p + 1 + m = p + (m + 1) := by omega
    have e2 : s + 1 + m = s + (m + 1) := by omega
    rw [e1, e2]

/-- Helper: if the probe first returns the target at 0-based offset k (and
neither the target nor the error state before), waitUntilLoop returns
success after exactly k plus one probes and k sleeps. -/
theorem waitUntilLoop_hit (f : Nat → String) (state : String) :
    ∀ (k n : Nat) (cur : String) (p s : Nat), k < n →
      (∀ j, j < k → f (p + j) ≠ state ∧ f (p + j) ≠ lvm.VMError) →
      f (p + k) = state →
      openstack.waitUntilLoop (fun i => .ok (f i)) state n cur p s = ⟨none, p + k + 1, s + k⟩ := by
  intro k
  induction k with
  | zero =>
    intro n cur p s hn hb hk
    obtain ⟨m, rfl⟩ : ∃ m, n = m + 1 := ⟨n - 1, by omega⟩
    rw [Nat.add_zero] at hk
    simp only [openstack.waitUntilLoop]
    rw [if_pos hk]
    simp
  | succ j ih =>
    intro n cur p s hn hb hk
    obtain ⟨m, rfl⟩ : ∃ m, n = m + 1 := ⟨n - 1, by omega⟩
    have h0 := hb 0 (Nat.succ_pos j)
    rw [Nat.add_zero] at h0
    simp only [openstack.waitUntilLoop]
    rw [if_neg h0.1, if_neg h0.2]
    have hb2 : ∀ i, i < j → f (p + 1 + i) ≠ state ∧ f (p + 1 + i) ≠ lvm.VMError := by
      intro i hi
      rw [show p + 1 + i = p + (i + 1) by omega]
      exact hb (i + 1) (by omega)
    have hk2 : f (p + 1 + j) = state := by
      rw [show p + 1 + j = p + (j + 1) by omega]
      exact hk
    rw [ih m (f p) (p + 1) (s + 1) (by omega) hb2 hk2]
    have e1 : p + 1 + j + 1 = p + (j + 1) + 1 := by omega
    have e2 : s + 1 + j = s + (j + 1) := by omega
    rw [e1, e2]

/-- Helper: if the probe first returns the fatal error state at 0-based
offset k (and neither the target nor the error state before), waitUntilLoop
returns the fatal formatted error immediately after that probe, with no
further probe or sleep. -/
theorem waitUntilLoop_fatal (f : Nat → String) (state : String) (hne : lvm.VMError ≠ state) :
    ∀ (k n : Nat) (cur : String) (p s : Nat), k < n →
      (∀ j, j < k → f (p + j) ≠ state ∧ f (p + j) ≠ lvm.VMError) →
      f (p + k) = lvm.VMError →
      openstack.waitUntilLoop (fun i => .ok (f i)) state n cur p s =
        ⟨some (.failedToBringState state), p + k + 1, s + k⟩ := by
  intro k
  induction k with
  | zero =>
    intro n cur p s hn hb hk
    obtain ⟨m, rfl⟩ : ∃ m, n = m + 1 := ⟨n - 1, by omega⟩
    rw [Nat.add_zero] at hk
    simp only [openstack.waitUntilLoop]
    rw [if_neg (by rw [hk]; exact hne), if_pos hk]
    simp
  | succ j ih =>
    intro n cur p s hn hb hk
    obtain ⟨m, rfl⟩ : ∃ m, n = m + 1 := ⟨n - 1, by omega⟩
    have h0 := hb 0 (Nat.succ_pos j)
    rw [Nat.add_zero] at h0
    simp only [openstack.waitUntilLoop]
    rw [if_neg h0.1, if_neg h0.2]
    have hb2 : ∀ i, i < j → f (p + 1 + i) ≠ state ∧ f (p + 1 + i) ≠ lvm.VMError := by
      intro i hi
      rw [show p + 1 + i = p + (i + 1) by omega]
      exact hb (i + 1) (by omega)
    have hk2 : f (p + 1 + j) = lvm.VMError := by
      rw [show p + 1 + j = p + (j + 1) by omega]
      exact hk
    rw [ih m (f p) (p + 1) (s + 1) (by omega) hb2 hk2]
    have e1 : p + 1 + j + 1 = p + (j + 1) + 1 := by omega
    have e2 : s + 1 + j = s + (j + 1) := by omega
    rw [e1, e2]

/-- Helper: one unfolding step of waitUntilLoop under a known error probe
answer. -/
theorem waitUntilLoop_step_err (probe : Nat → Except openstack.OsErr String) (state : String)
    (m : Nat) (cur : String) (p s : Nat) (e : openstack.OsErr) (hp : probe p = .error e) :
    openstack.waitUntilLoop probe state (m + 1) cur p s = ⟨some e, p + 1, s⟩ := by
  simp only [openstack.waitUntilLoop, hp]

/-- Helper: one unfolding step of waitUntilLoop under a known successful
probe answer. -/
theorem waitUntilLoop_step_ok (probe : Nat → Except openstack.OsErr String) (state : String)
    (m : Nat) (cur : String) (p s : Nat) (c : String) (hp : probe p = .ok c) :
    openstack.waitUntilLoop probe state (m + 1) cur p s =
      if c = state then ⟨none, p + 1, s⟩
      else if c = lvm.VMError then ⟨some (.failedToBringState state), p + 1, s⟩
      else openstack.waitUntilLoop probe state m c (p + 1) (s + 1) := by
  simp only [openstack.waitUntilLoop, hp]

/-- Helper: a successful waitUntilLoop run either started at the target or
saw the probe return the target at some offset within its fuel. -/
theorem waitUntilLoop_reaches (probe : Nat → Except openstack.OsErr String) (state : String) :
    ∀ (n : Nat) (cur : String) (p s : Nat),
      (openstack.waitUntilLoop probe state n cur p s).result = none →
      cur = state ∨ ∃ k, k < n ∧ probe (p + k) = .ok state := by
  intro n
  induction n with
  | zero =>
    intro cur p s h
    simp only [openstack.waitUntilLoop] at h
    by_cases hc : cur = state
    · exact Or.inl hc
    · rw [if_pos hc] at h
      exact absurd h (by simp)
  | succ m ih =>
    intro cur p s h
    rcases hp : probe p with e | c
    · rw [waitUntilLoop_step_err probe state m cur p s e hp] at h
      exact absurd h (by simp)
    · rw [waitUntilLoop_step_ok probe state m cur p s c hp] at h
      by_cases hc : c = state
      · exact Or.inr ⟨0, Nat.succ_pos m, by rw [Nat.add_zero, hp, hc]⟩
      · rw [if_neg hc] at h
        by_cases he : c = lvm.VMError
        · rw [if_pos he] at h
          exact absurd h (by simp)
        · rw [if_neg he] at h
          rcases ih c (p + 1) (s + 1) h with hcs | ⟨k, hk, hpk⟩
          · exact absurd hcs hc
          · exact Or.inr ⟨k + 1, by omega, by rw [show p + (k + 1) = p + 1 + k by omega]; exact hpk⟩

/-- C1, counterexample. The claim says every polling wait returns a
distinguished timeout error that carries the last observed state. It is
false on the code in two ways: the azure arm Poller.PollAsNeeded has no
timeout at all (under a probe that always answers the non-terminal status
Accepted, the loop is still running after any number of iterations), and
the openstack waitUntil returns the same constant ErrActionTimeout whatever
state was last observed (here, two runs whose last observed states are
pending and starting produce identical errors), so the timeout error does
not preserve the last observed value. -/
theorem claim_C1_counterexample :
    arm.pollPendingForever ∧
    (openstack.waitUntil (fun _ => .ok lvm.VMPending) lvm.VMRunning).result =
      some .actionTimeout ∧
    (openstack.waitUntil (fun _ => .ok lvm.VMStarting) lvm.VMRunning).result =
      some .actionTimeout := by
  refine ⟨fun i fuel => arm_PollAsNeeded_pending i fuel, ?_, ?_⟩
  · rw [openstack.waitUntil,
      waitUntilLoop_stuck (fun _ => lvm.VMPending) lvm.VMRunning
        (fun _ => ⟨show lvm.VMPending ≠ lvm.VMRunning by decide,
          show lvm.VMPending ≠ lvm.VMError by decide⟩)
        openstack.ActionTimeout "" 0 0 (by decide)]
  · rw [openstack.waitUntil,
      waitUntilLoop_stuck (fun _ => lvm.VMStarting) lvm.VMRunning
        (fun _ => ⟨show lvm.VMStarting ≠ lvm.VMRunning by decide,
          show lvm.VMStarting ≠ lvm.VMError by decide⟩)
        openstack.ActionTimeout "" 0 0 (by decide)]

/-- C1, amended claim. The openstack waitUntil, given a probe that within
its iteration budget never returns the target state, the fatal error state
or a probe error, returns the distinguished constant timeout error
ErrActionTimeout, which is distinct from the fatal-state error and from
wrapped backend errors but does not carry the last observed state; the
azure arm Poller.PollAsNeeded has no timeout and never returns while its
probe keeps answering a non-terminal status. -/
theorem claim_C1_amended (f : Nat → String) (state : String)
    (hf : ∀ i, f i ≠ state ∧ f i ≠ lvm.VMError) (hinit : state ≠ "") :
    (openstack.waitUntil (fun i => .ok (f i)) state).result = some .actionTimeout ∧
    (∀ t, (openstack.OsErr.actionTimeout : openstack.OsErr) ≠ .failedToBringState t) ∧
    (∀ m, (openstack.OsErr.actionTimeout : openstack.OsErr) ≠ .msg m) ∧
    arm.pollPendingForever := by
  refine ⟨?_, ?_, ?_, fun i fuel => arm_PollAsNeeded_pending i fuel⟩
  · rw [openstack.waitUntil,
      waitUntilLoop_stuck f state hf openstack.ActionTimeout "" 0 0 (fun h => hinit h.symm)]
  · intro t h
    exact openstack.OsErr.noConfusion h
  · intro m h
    exact openstack.OsErr.noConfusion h

/-- Witness for the amended C1 at the always-pending probe. -/
theorem claim_C1_amended_witness :
    (openstack.waitUntil (fun _ => .ok lvm.VMPending) lvm.VMRunning).result =
      some .actionTimeout :=
  (claim_C1_amended (fun _ => lvm.VMPending) lvm.VMRunning
    (fun _ => ⟨show lvm.VMPending ≠ lvm.VMRunning by decide,
      show lvm.VMPending ≠ lvm.VMError by decide⟩) (by decide)).1

/-- C2: the openstack waitUntil short-circuits at the first terminal
observation. If the probe first returns the target at 1-based position
k plus one (0-based offset k) within the iteration budget, the wait
succeeds after exactly k plus one probes and k sleeps (no polling or
sleeping after the terminal probe); and if the probe first returns the
canonical fatal error state at 0-based offset j (before any target), the
wait returns a non-timeout error immediately after that probe, with j
sleeps and no further polling. -/
theorem claim_C2_short_circuit
    (f g : Nat → String) (target target2 : String) (k j : Nat)
    (hk : k < openstack.ActionTimeout)
    (hit : f k = target)
    (hbefore : ∀ i, i < k → f i ≠ target ∧ f i ≠ lvm.VMError)
    (hj : j < openstack.ActionTimeout)
    (hfatal : g j = lvm.VMError)
    (hne : lvm.VMError ≠ target2)
    (hbefore2 : ∀ i, i < j → g i ≠ target2 ∧ g i ≠ lvm.VMError) :
    openstack.waitUntil (fun i => .ok (f i)) target = ⟨none, k + 1, k⟩ ∧
    openstack.waitUntil (fun i => .ok (g i)) target2 =
      ⟨some (.failedToBringState target2), j + 1, j⟩ ∧
    (openstack.OsErr.failedToBringState target2) ≠ .actionTimeout := by
  refine ⟨?_, ?_, fun h => openstack.OsErr.noConfusion h⟩
  · have h := waitUntilLoop_hit f target k openstack.ActionTimeout "" 0 0 hk
      (fun i hi => by simpa using hbefore i hi) (by simpa using hit)
    rw [openstack.waitUntil, h]
    simp
  · have h := waitUntilLoop_fatal g target2 hne j openstack.ActionTimeout "" 0 0 hj
      (fun i hi => by simpa using hbefore2 i hi) (by simpa using hfatal)
    rw [openstack.waitUntil, h]
    simp

/-- Witness for C2 at the probe sequences pending, pending, running (three
probes, two sleeps) and pending, error (two probes, one sleep). -/
theorem claim_C2_witness :
    openstack.waitUntil
      (fun i => .ok (if i < 2 then lvm.VMPending else lvm.VMRunning)) lvm.VMRunning =
      ⟨none, 3, 2⟩ ∧
    openstack.waitUntil
      (fun i => .ok (if i = 0 then lvm.VMPending else lvm.VMError)) lvm.VMRunning =
      ⟨some (.failedToBringState lvm.VMRunning), 2, 1⟩ := by
  have h := claim_C2_short_circuit
    (fun i => if i < 2 then lvm.VMPending else lvm.VMRunning)
    (fun i => if i = 0 then lvm.VMPending else lvm.VMError)
    lvm.VMRunning lvm.VMRunning 2 1
    (by decide)
    (show (if 2 < 2 then lvm.VMPending else lvm.VMRunning) = lvm.VMRunning by decide)
    (by
      intro i hi
      interval_cases i <;>
        exact ⟨show lvm.VMPending ≠ lvm.VMRunning by decide,
          show lvm.VMPending ≠ lvm.VMError by decide⟩)
    (by decide)
    (show (if 1 = 0 then lvm.VMPending else lvm.VMError) = lvm.VMError by decide)
    (by decide)
    (by
      intro i hi
      interval_cases i
      exact ⟨show lvm.VMPending ≠ lvm.VMRunning by decide,
        show lvm.VMPending ≠ lvm.VMError by decide⟩)
  exact ⟨h.1, h.2.1⟩

/-- C3: the two azure state translators are total pure functions. Every
input status string maps to exactly one member of the canonical state set,
and every token outside the recognized switch cases maps to the canonical
unknown state; no input produces an error. -/
theorem claim_C3_translators_total (s : String) :
    arm.translateState s ∈ lvm.canonicalStates ∧
    azure.translateState s ∈ lvm.canonicalStates ∧
    (s ∉ fixtures.armRecognized → arm.translateState s = lvm.VMUnknown) ∧
    (s ∉ fixtures.azureRecognized → azure.translateState s = lvm.VMUnknown) := by
  refine ⟨?_, ?_, ?_, ?_⟩
  · unfold arm.translateState
    split_ifs <;> simp [lvm.canonicalStates]
  · unfold azure.translateState
    split_ifs <;> simp [lvm.canonicalStates]
  · intro h
    simp only [fixtures.armRecognized, List.mem_cons, List.not_mem_nil, or_false] at h
    push_neg at h
    obtain ⟨n1, n2, n3, n4, n5, n6⟩ := h
    unfold arm.translateState
    rw [if_neg (by tauto), if_neg, if_neg, if_neg (by tauto)]
    · exact n4
    · exact n3
  · intro h
    simp only [fixtures.azureRecognized, List.mem_cons, List.not_mem_nil, or_false] at h
    push_neg at h
    obtain ⟨n1, n2, n3, n4, n5, n6, n7⟩ := h
    unfold azure.translateState
    rw [if_neg (by tauto), if_neg n3, if_neg n4, if_neg (by tauto)]

/-- Witness for C3 at an unrecognized backend status token. -/
theorem claim_C3_witness :
    arm.translateState "BrandNewStatus" ∈ lvm.canonicalStates ∧
    azure.translateState "BrandNewStatus" ∈ lvm.canonicalStates ∧
    arm.translateState "BrandNewStatus" = lvm.VMUnknown ∧
    azure.translateState "BrandNewStatus" = lvm.VMUnknown :=
  ⟨(claim_C3_translators_total "BrandNewStatus").1,
   (claim_C3_translators_total "BrandNewStatus").2.1,
   (claim_C3_translators_total "BrandNewStatus").2.2.1 (by decide),
   (claim_C3_translators_total "BrandNewStatus").2.2.2 (by decide)⟩

/-- Helper: the arm translator always lands in the canonical state set. -/
theorem arm_translateState_mem (s : String) : arm.translateState s ∈ lvm.canonicalStates := by
  unfold arm.translateState
  split_ifs <;> simp [lvm.canonicalStates]

/-- Helper: the classic azure translator always lands in the canonical
state set. -/
theorem azure_translateState_mem (s : String) : azure.translateState s ∈ lvm.canonicalStates := by
  unfold azure.translateState
  split_ifs <;> simp [lvm.canonicalStates]

/-- C4, counterexample. The claim says every adapter returns only canonical
states from GetState. The google adapter returns the backend-native status
token unchanged: with the backend reporting the native GCE status
TERMINATED, GetState returns TERMINATED, which is not one of the seven
canonical states. -/
theorem claim_C4_counterexample :
    google.GetState (.ok ()) (.ok ⟨"TERMINATED"⟩) = .ok "TERMINATED" ∧
    "TERMINATED" ∉ lvm.canonicalStates := ⟨rfl, by decide⟩

/-- C4, amended claim. The openstack, classic azure and vmrun adapters
return only canonical states whenever GetState succeeds, and the azure arm
GetState translates to a canonical state whenever the response carries an
instance view; the google adapter instead passes the backend-native status
token through unchanged. -/
theorem claim_C4_amended
    (id : String) (cOK : Bool) (sdk : Option openstack.Server × Bool)
    (clientOK : Bool) (deployment : Except String String)
    (raw : String) (e : Option String)
    (stdout stderr dst : String) (runErr : Option String)
    (evalSymlinks : Except String String) (absOf : String → Except String String) :
    (∀ s, openstack.GetState id cOK sdk = .ok s → s ∈ lvm.canonicalStates) ∧
    (∀ s, azure.GetState clientOK deployment = .ok s → s ∈ lvm.canonicalStates) ∧
    (arm.GetState (some raw) e = (arm.translateState raw, e) ∧
      arm.translateState raw ∈ lvm.canonicalStates) ∧
    (∀ s, vmrun.GetState stdout stderr runErr dst evalSymlinks absOf = .ok s →
      s ∈ lvm.canonicalStates) ∧
    (∀ st, google.GetState (.ok ()) (.ok ⟨st⟩) = .ok st) := by
  refine ⟨?_, ?_, ⟨rfl, arm_translateState_mem raw⟩, ?_, fun st => rfl⟩
  · intro s h
    unfold openstack.GetState at h
    split at h
    · exact absurd h (by simp)
    · exact absurd h (by simp)
    · split_ifs at h <;> (injection h with h; subst h; decide)
  · intro s h
    unfold azure.GetState at h
    split_ifs at h
    split at h
    · exact absurd h (by simp)
    · injection h with h
      subst h
      exact azure_translateState_mem _
  · intro s h
    unfold vmrun.GetState at h
    split at h
    · exact absurd h (by simp)
    · by_cases h1 : stderr ≠ ""
      · rw [if_pos h1] at h
        exact absurd h (by simp)
      · rw [if_neg h1] at h
        by_cases h2 : goContains stdout dst = true
        · rw [if_pos h2] at h
          injection h with h
          subst h
          decide
        · rw [if_neg h2] at h
          split at h
          · exact absurd h (by simp)
          · split at h
            · exact absurd h (by simp)
            · split_ifs at h <;> (injection h with h; subst h; decide)

/-- Witness for the amended C4: an openstack server in the ACTIVE status
yields the canonical running state. -/
theorem claim_C4_amended_witness :
    openstack.GetState "id-1" true (some ⟨"ACTIVE", []⟩, false) = .ok lvm.VMRunning ∧
    lvm.VMRunning ∈ lvm.canonicalStates :=
  ⟨rfl,
   (claim_C4_amended "id-1" true (some ⟨"ACTIVE", []⟩, false) true (.ok "Running")
      "VM running" none "" "" "" none (.ok "") (fun _ => .ok "")).1 lvm.VMRunning rfl⟩

/-- C10: the vmrun GetState returns only the canonical running and
suspended states: running exactly when the vmrun process listing contains
the VM destination path directly or via its resolved absolute symlink
target, suspended for every VM not listed (including one that was cleanly
halted), and never the canonical halted state. -/
theorem claim_C10_vmrun_two_states
    (stdout stderr dst : String) (runErr : Option String)
    (evalSymlinks : Except String String) (absOf : String → Except String String) :
    (∀ s, vmrun.GetState stdout stderr runErr dst evalSymlinks absOf = .ok s →
      (s = lvm.VMRunning ∨ s = lvm.VMSuspended) ∧ s ≠ lvm.VMHalted) ∧
    (∀ p absp, goContains stdout dst = false → evalSymlinks = .ok p → absOf p = .ok absp →
      goContains stdout absp = false →
      vmrun.GetState stdout "" none dst evalSymlinks absOf = .ok lvm.VMSuspended) ∧
    (goContains stdout dst = true →
      vmrun.GetState stdout "" none dst evalSymlinks absOf = .ok lvm.VMRunning) := by
  refine ⟨?_, ?_, ?_⟩
  · intro s h
    unfold vmrun.GetState at h
    split at h
    · exact absurd h (by simp)
    · by_cases h1 : stderr ≠ ""
      · rw [if_pos h1] at h
        exact absurd h (by simp)
      · rw [if_neg h1] at h
        by_cases h2 : goContains stdout dst = true
        · rw [if_pos h2] at h
          injection h with h
          subst h
          exact ⟨Or.inl rfl, by decide⟩
        · rw [if_neg h2] at h
          split at h
          · exact absurd h (by simp)
          · split at h
            · exact absurd h (by simp)
            · split_ifs at h <;> (injection h with h; subst h)
              · exact ⟨Or.inl rfl, by decide⟩
              · exact ⟨Or.inr rfl, by decide⟩
  · intro p absp h1 h2 h3 h4
    simp [vmrun.GetState, h1, h2, h3, h4]
  · intro h1
    simp [vmrun.GetState, h1]

/-- Witness for C10: a cleanly halted VM (absent from the vmrun listing,
with its symlink resolving to a path also absent) reports the suspended
state, not halted. -/
theorem claim_C10_witness :
    vmrun.GetState "/vms/other.vmx" "" none "/vms/halted"
      (.ok "/vms/halted-real") (fun s => (.ok s : Except String String)) =
      .ok lvm.VMSuspended ∧
    lvm.VMSuspended ≠ lvm.VMHalted := by
  refine ⟨?_, by decide⟩
  exact (claim_C10_vmrun_two_states "/vms/other.vmx" "" "/vms/halted" none
    (.ok "/vms/halted-real") (fun s => (.ok s : Except String String))).2.1
    "/vms/halted-real" "/vms/halted-real" (by decide) rfl rfl (by decide)

/-- C5, counterexample. The claim says every lifecycle operation other than
Provision, invoked with an empty instance identifier, returns a missing-ID
precondition error. The openstack Suspend (and Resume) instead return the
capability-not-supported errors of the base package, which are distinct
from the missing-ID error, even on a VM whose instance ID is empty. -/
theorem claim_C5_counterexample :
    openstack.Suspend fixtures.vmNoID = (.error .suspendNotSupported, fixtures.vmNoID, []) ∧
    openstack.Resume fixtures.vmNoID = (.error .resumeNotSupported, fixtures.vmNoID, []) ∧
    (openstack.OsErr.suspendNotSupported : openstack.OsErr) ≠ .noInstanceID ∧
    (openstack.OsErr.resumeNotSupported : openstack.OsErr) ≠ .noInstanceID :=
  ⟨rfl, rfl, by decide, by decide⟩

/-- C5, amended claim. On the openstack adapter, Start, Halt, Destroy and
GetIPs invoked with an empty instance identifier return the missing-ID
precondition error ErrNoInstanceID immediately, with an empty backend call
trace; Suspend and Resume also perform no backend call but return the
capability-not-supported errors instead of a precondition error. -/
theorem claim_C5_amended (vm : openstack.OsVM) (env : openstack.OsEnv)
    (h : vm.InstanceID = "") :
    openstack.Start vm env = (.error .noInstanceID, vm, []) ∧
    openstack.Halt vm env = (.error .noInstanceID, vm, []) ∧
    openstack.Destroy vm env = (.error .noInstanceID, vm, []) ∧
    openstack.GetIPs vm env = (.error .noInstanceID, vm, []) ∧
    openstack.Suspend vm = (.error .suspendNotSupported, vm, []) ∧
    openstack.Resume vm = (.error .resumeNotSupported, vm, []) := by
  refine ⟨?_, ?_, ?_, ?_, rfl, rfl⟩
  · unfold openstack.Start
    rw [if_pos h]
  · unfold openstack.Halt
    rw [if_pos h]
  · unfold openstack.Destroy
    rw [if_pos h]
  · unfold openstack.GetIPs
    rw [if_pos h]

/-- Witness for the amended C5 on a VM that was never provisioned. -/
theorem claim_C5_amended_witness :
    openstack.Start fixtures.vmNoID fixtures.envOk = (.error .noInstanceID, fixtures.vmNoID, []) ∧
    openstack.Halt fixtures.vmNoID fixtures.envOk = (.error .noInstanceID, fixtures.vmNoID, []) ∧
    openstack.Destroy fixtures.vmNoID fixtures.envOk = (.error .noInstanceID, fixtures.vmNoID, []) ∧
    openstack.GetIPs fixtures.vmNoID fixtures.envOk = (.error .noInstanceID, fixtures.vmNoID, []) ∧
    openstack.Suspend fixtures.vmNoID = (.error .suspendNotSupported, fixtures.vmNoID, []) ∧
    openstack.Resume fixtures.vmNoID = (.error .resumeNotSupported, fixtures.vmNoID, []) :=
  claim_C5_amended fixtures.vmNoID fixtures.envOk rfl

/-- C9, code bug. The azure arm Provision calls vm.deploy as a bare
statement and discards its returned error: with every required spec field
present, a deployment that fails with an error, and an SSH connection that
succeeds, Provision returns success, contradicting its own documentation
that an error is returned if there was a problem during creation. -/
theorem claim_C9_deploy_error_swallowed :
    fixtures.envArmDeployFails.deployResult =
      .error "deployment failed with a status of Failed." ∧
    arm.Provision fixtures.vmArm fixtures.envArmDeployFails = .ok () :=
  ⟨rfl, rfl⟩

/-- C6, counterexample. The claim says Provision never returns success with
the creation still pending as an un-awaited asynchronous job. The exoscale
Provision, on a VM whose identifiers are already resolved, issues exactly
one backend call (CreateVirtualMachine), stores the returned job identifier
and reports success, with no job poll, no state query and no reachability
wait in its trace. -/
theorem claim_C6_counterexample :
    exoscale.Provision fixtures.vmExo fixtures.envExo =
      (.ok (), ⟨"tmpl-1", "offer-1", ["sg-1"], "zone-1", "job-42"⟩,
        [.createVirtualMachine]) ∧
    exoscale.Call.queryAsyncJobResult ∉ [exoscale.Call.createVirtualMachine] ∧
    exoscale.Call.listVirtualMachines ∉ [exoscale.Call.createVirtualMachine] :=
  ⟨rfl, by decide, by decide⟩

/-- Helper: a successful openstack Provision implies its running-state wait
succeeded, the floating IP association succeeded, and the SSH wait
succeeded. -/
theorem osProvision_ok_waits (vm : openstack.OsVM) (env : openstack.OsEnv)
    (h : (openstack.Provision vm env).1 = .ok ()) :
    (openstack.waitUntil env.getStateSeq lvm.VMRunning).result = none ∧
    env.fipAssociateErr = none ∧ ∃ u, env.sshReady = .ok u := by
  simp only [openstack.Provision] at h
  repeat' split at h
  all_goals
    first
      | (simp at h; done)
      | exact ⟨by assumption, by assumption, ⟨_, by assumption⟩⟩

/-- C6, amended claim. The openstack Provision returns success only after
its status poll observed the canonical running state within the iteration
budget, the floating IP association succeeded and the SSH reachability wait
succeeded; the exoscale Provision instead returns success directly after
the asynchronous create call, storing the job identifier, with exactly one
backend call and no wait of any kind. -/
theorem claim_C6_amended (vm : openstack.OsVM) (env : openstack.OsEnv)
    (h : (openstack.Provision vm env).1 = .ok ()) :
    (∃ k, k < openstack.ActionTimeout ∧ env.getStateSeq k = .ok lvm.VMRunning) ∧
    env.fipAssociateErr = none ∧
    (∃ u, env.sshReady = .ok u) ∧
    (∀ (evm : exoscale.ExoVM) (eenv : exoscale.Env) (jobID : String),
      evm.TemplateID ≠ "" → evm.ServiceOfferingID ≠ "" →
      evm.SecurityGroupIDs.any (fun i => i = "") = false → evm.ZoneID ≠ "" →
      eenv.create = .ok jobID →
      exoscale.Provision evm eenv =
        (.ok (), { evm with JobID := jobID }, [.createVirtualMachine])) := by
  obtain ⟨hw, ha, hs⟩ := osProvision_ok_waits vm env h
  refine ⟨?_, ha, hs, ?_⟩
  · rcases waitUntilLoop_reaches env.getStateSeq lvm.VMRunning openstack.ActionTimeout
      "" 0 0 hw with hempty | ⟨k, hk, hpk⟩
    · exact absurd hempty (by decide)
    · exact ⟨k, hk, by simpa using hpk⟩
  · intro evm eenv jobID h1 h2 h3 h4 h5
    simp [exoscale.Provision, h1, h2, h3, h4, h5]

/-- Witness for the amended C6 under the all-success openstack environment
and a fully resolved exoscale VM. -/
theorem claim_C6_amended_witness :
    ((∃ k, k < openstack.ActionTimeout ∧ fixtures.envOk.getStateSeq k = .ok lvm.VMRunning) ∧
      fixtures.envOk.fipAssociateErr = none ∧
      (∃ u, fixtures.envOk.sshReady = .ok u)) ∧
    exoscale.Provision fixtures.vmExo fixtures.envExo =
      (.ok (), { fixtures.vmExo with JobID := "job-42" }, [.createVirtualMachine]) := by
  have h := claim_C6_amended fixtures.vmReady fixtures.envOk rfl
  exact ⟨⟨h.1, h.2.1, h.2.2.1⟩,
    h.2.2.2 fixtures.vmExo fixtures.envExo "job-42" (by decide) (by decide) (by decide)
      (by decide) rfl⟩

/-- C7, counterexample. The claim says Destroy tears down side-resources in
reverse creation order (the side-resource created last is destroyed first).
On openstack, Provision creates the floating IP before the volume, yet
Destroy also tears down the floating IP before the volume: the teardown
order equals the creation order instead of reversing it, while the primary
instance is deleted last in both readings. -/
theorem claim_C7_counterexample :
    (openstack.Provision fixtures.vmReady fixtures.envOk).1 = .ok () ∧
    (openstack.Destroy fixtures.vmProvisioned fixtures.envOk).1 = .ok () ∧
    (openstack.Provision fixtures.vmReady fixtures.envOk).2.2.indexOf .fipCreate <
      (openstack.Provision fixtures.vmReady fixtures.envOk).2.2.indexOf .volCreate ∧
    (openstack.Destroy fixtures.vmProvisioned fixtures.envOk).2.2.indexOf .fipDisassociate <
      (openstack.Destroy fixtures.vmProvisioned fixtures.envOk).2.2.indexOf .volDetach ∧
    (openstack.Provision fixtures.vmReady fixtures.envOk).2.1 = fixtures.vmProvisioned := by
  exact ⟨rfl, rfl, by decide, by decide, rfl⟩

/-- C7, amended claim. For an openstack VM holding both a floating IP and a
volume, Destroy issues the floating IP disassociate and delete first, then
the volume detach, status polls and delete, and deletes the primary
instance last: the same order in which Provision created the floating IP
and then the volume, not the reverse. -/
theorem claim_C7_amended :
    openstack.Provision fixtures.vmReady fixtures.envOk =
      (.ok (), fixtures.vmProvisioned,
       [.authenticate, .flavorLookup, .serverCreate, .serversGet, .fipCreate, .fipAssociate,
        .sshWait, .authenticate, .volCreate, .volGet, .volAttach, .volGet]) ∧
    openstack.Destroy fixtures.vmProvisioned fixtures.envOk =
      (.ok (), { fixtures.vmProvisioned with computeClientSet := false },
       [.fipDisassociate, .fipDelete, .authenticate, .volDetach, .volGet, .volDelete, .volGet,
        .serverDelete, .serversGet]) :=
  ⟨rfl, rfl⟩

/-- C8, counterexample. The claim says a second Destroy after a fully
successful first one returns success, not-found teardown responses being
treated as success. On openstack the first Destroy succeeds but leaves the
instance ID and the floating IP record in place, and the second Destroy
fails: the not-found answer to the floating IP disassociate call is
returned as an error, not treated as success. -/
theorem claim_C8_counterexample :
    (openstack.Destroy fixtures.vmProvisioned fixtures.envOk).1 = .ok () ∧
    (openstack.Destroy fixtures.vmProvisioned fixtures.envOk).2.1.InstanceID = "id-1" ∧
    (openstack.Destroy ((openstack.Destroy fixtures.vmProvisioned fixtures.envOk).2.1)
        fixtures.envGone).1 =
      .error (.msg "Unable to disassociate floating ip from instance: Resource not found") :=
  ⟨rfl, rfl, rfl⟩

/-- C8, amended claim. The azure arm Destroy does treat a not-found answer
as success: when the deletion status poll fails with an error carrying the
ResourceNotFound code, Destroy takes it as confirmation and completes the
remaining teardown successfully. The openstack Destroy does not: it never
clears the instance ID, and an error answer to the floating IP teardown of
a re-invoked Destroy is returned as a failure. -/
theorem claim_C8_amended (e : String)
    (he : goContains e "Code=\"ResourceNotFound\"" = true)
    (vm : openstack.OsVM) (env : openstack.OsEnv) (f : String × String) (msg2 : String)
    (hid : vm.InstanceID ≠ "") (hclient : vm.computeClientSet = true)
    (hfip : vm.FloatingIP = some f) (hgone : env.fipDisassociateErr = some msg2) :
    arm.Destroy none (fun _ => some e) none none none = .ok () ∧
    (openstack.Destroy vm env).1 =
      .error (.msg ("Unable to disassociate floating ip from instance: " ++ msg2)) := by
  constructor
  · have hp : arm.destroyPoll (fun _ => some e) 0 arm.actionTimeout = .ok true := by
      show arm.destroyPoll (fun _ => some e) 0 90 = .ok true
      rw [show (90 : Nat) = 89 + 1 from rfl, arm.destroyPoll]
      simp [he]
    simp [arm.Destroy, hp]
  · simp [openstack.Destroy, openstack.getComputeClient, hid, hclient, hfip, hgone]

/-- Witness for the amended C8 at a concrete ResourceNotFound error and the
openstack VM left behind by a successful Destroy. -/
theorem claim_C8_amended_witness :
    arm.Destroy none
      (fun _ => some "compute.VirtualMachinesClient Code=\"ResourceNotFound\" status 404")
      none none none = .ok () ∧
    (openstack.Destroy fixtures.vmProvisioned fixtures.envGone).1 =
      .error (.msg ("Unable to disassociate floating ip from instance: " ++ "Resource not found")) :=
  claim_C8_amended "compute.VirtualMachinesClient Code=\"ResourceNotFound\" status 404"
    (by decide) fixtures.vmProvisioned fixtures.envGone ("fid", "1.2.3.4") "Resource not found"
    (by decide) rfl rfl rfl
